import Mathlib

/-!
Verification of the APIRoute bus-management HTTP service.

The repository contains two variants of the same Express server:
`src/server.js` (Estonian messages, explicit field check on bus creation)
and `src/unnamed/part_001` (English messages, Swagger docs, a logout
route, no explicit field check on creation).  Both are embedded below,
namespaces `ServerJs` and `Part001`, over a shared data model.

Request bodies are JSON, so a field is an optional JavaScript value
(`Option JVal`, `none` = the key is absent / destructures to
`undefined`).  Numbers are modelled as rationals, and the numeric
strings of the model are signed decimal literals (exponent, hexadecimal
and whitespace-padded forms are outside the modelled fragment).  The
Mongoose layer is embedded explicitly: casting per declared path type
(on a Number path null and the empty string cast to null and booleans
to 1/0, while a non-numeric string is a CastError), the save-time
`required` validators (a String path needs a non-null non-empty value,
a Number path a non-null one) and the role enum, `undefined` keys
stripped from update documents, and — only where `runValidators` is
set — the required re-checks on the paths an update sets.  Stored
fields are nullable, as in the document store.  A rejected save or
update surfaces in the handler's `catch` as 500.
-/

namespace APIRoute

/-- A JavaScript value as it can appear in a JSON request body field. -/
inductive JVal where
  | vStr : String → JVal
  | vNum : Int → JVal
  | vBool : Bool → JVal
  | vNull : JVal
deriving DecidableEq, Repr

/-- JavaScript truthiness of a possibly-absent value (`undefined`, `null`,
`0`, `""`, `false` are falsy). -/
def truthy : Option JVal → Bool
  | none => false
  | some JVal.vNull => false
  | some (JVal.vStr s) => s ≠ ""
  | some (JVal.vNum n) => n ≠ 0
  | some (JVal.vBool b) => b

/-- The numeral value of a list of decimal digits: `none` when some
character is not a digit, the fold of the digits otherwise (the empty
list folds to 0; callers decide whether emptiness is allowed). -/
def decDigits (l : List Char) : Option Nat :=
  if l.all Char.isDigit then
    some (l.foldl (fun acc c => acc * 10 + (c.toNat - 48)) 0)
  else none

/-- The unsigned part of `Number(s)`: a decimal literal with an optional
fractional part, at least one digit overall (so `"5."` and `".5"` parse
as in JS and `"."` does not). -/
def decFrac (l : List Char) : Option ℚ :=
  match l.span (fun c => c ≠ '.') with
  | (ip, []) =>
    if ip.isEmpty then none
    else (decDigits ip).map (fun n => (n : ℚ))
  | (ip, _ :: fp) =>
    if ip.isEmpty && fp.isEmpty then none
    else
      match decDigits ip, decDigits fp with
      | some n, some f =>
        some ((n : ℚ) + (f : ℚ) / ((10 : ℚ) ^ fp.length))
      | _, _ => none

/-- `Number(s)` for a non-empty string of the model's numeric fragment:
an optional sign and a decimal literal with an optional fractional
part; `none` is NaN, i.e. a CastError on a Number path. -/
def jsNumString (s : String) : Option ℚ :=
  match s.toList with
  | '-' :: rest => (decFrac rest).map (fun q => -q)
  | '+' :: rest => decFrac rest
  | l => decFrac l

/-- JS `String(n)` of a model number: integers render as in JS;
non-integral rationals render in Lean's num/den notation (the decimal
rendering of doubles is outside the model). -/
def numToString (q : ℚ) : String :=
  if q.den = 1 then toString q.num else toString q

/-- Mongoose cast of a present JS value on a `String` path: null casts
through as null (`some none`), everything else by `String(v)`; no value
of the model's domain is a CastError here. -/
def castStr : JVal → Option (Option String)
  | JVal.vStr s => some (some s)
  | JVal.vNum q => some (some (numToString q))
  | JVal.vBool b => some (some (toString b))
  | JVal.vNull => some none

/-- Mongoose cast of a present JS value on a `Number` path
(`castNumber`): null and the empty string cast to null, booleans to
1/0, numeric strings through `Number(s)`; a non-numeric string is a
CastError (`none`). -/
def castNum : JVal → Option (Option ℚ)
  | JVal.vNum q => some (some q)
  | JVal.vBool b => some (some (if b then 1 else 0))
  | JVal.vNull => some none
  | JVal.vStr s => if s = "" then some none else (jsNumString s).map some

/-- A `required` String path on document creation: the value must be
present, cast, and the cast value be a non-empty string
(`checkRequired` tests `v.length`). -/
def reqString (v : Option JVal) : Option String :=
  match v with
  | none => none
  | some jv =>
    match castStr jv with
    | some (some s) => if s = "" then none else some s
    | _ => none

/-- A `required` Number path on document creation: the value must be
present, cast, and the cast value be non-null. -/
def reqNum (v : Option JVal) : Option ℚ :=
  match v with
  | none => none
  | some jv =>
    match castNum jv with
    | some (some q) => some q
    | _ => none

/-- The six bus fields as they arrive in a request body
(`none` = key absent). -/
structure BusBody where
  busNumber : Option JVal
  seats : Option JVal
  route : Option JVal
  departurePoint : Option JVal
  destinationPoint : Option JVal
  departureTime : Option JVal
deriving DecidableEq, Repr

/-- The six typed bus fields after successful schema casting and
required validation. -/
structure BusData where
  busNumber : String
  seats : ℚ
  route : String
  departurePoint : String
  destinationPoint : String
  departureTime : String
deriving DecidableEq, Repr

/-- A persisted bus record: the store-assigned id and the six stored
fields, nullable as in the document store (creation always stores
non-null values; an update without validators can store null). -/
structure Bus where
  id : Nat
  busNumber : Option String
  seats : Option ℚ
  route : Option String
  departurePoint : Option String
  destinationPoint : Option String
  departureTime : Option String
deriving DecidableEq, Repr

/-- Build the persisted record `new Bus({...})` from the cast fields and
the store-assigned id. -/
def mkBus (id : Nat) (d : BusData) : Bus :=
  ⟨id, some d.busNumber, some d.seats, some d.route, some d.departurePoint,
    some d.destinationPoint, some d.departureTime⟩

/-- Schema validation of a new bus document (`new Bus({...}); save()`):
every one of the six `required` paths must be present, cast, and
satisfy its required validator. -/
def validateBus (b : BusBody) : Option BusData := do
  let bn ← reqString b.busNumber
  let st ← reqNum b.seats
  let rt ← reqString b.route
  let dp ← reqString b.departurePoint
  let sp ← reqString b.destinationPoint
  let dt ← reqString b.departureTime
  pure ⟨bn, st, rt, dp, sp, dt⟩

/-- The bus collection together with the next store-assigned id. -/
structure BusStore where
  buses : List Bus
  nextId : Nat
deriving DecidableEq, Repr

/-- `Bus.findById` / lookup by id. -/
def findBus (id : Nat) (s : BusStore) : Option Bus :=
  s.buses.find? (fun b => b.id = id)

/-- A persisted user record. -/
structure User where
  id : Nat
  username : String
  passwordHash : String
  role : String
deriving DecidableEq, Repr

/-- The user collection together with the next store-assigned id. -/
structure UserStore where
  users : List User
  nextId : Nat
deriving DecidableEq, Repr

/-- `User.findOne({username})`. -/
def findUser (u : String) (s : UserStore) : Option User :=
  s.users.find? (fun x => x.username = u)

/-- Deterministic model of `bcrypt.hash(p, 10)` (injective, one-way in
the model's sense: handlers never invert it). -/
def bcryptHash (p : String) : String :=
  "$2b$10$" ++ p

/-- Model of `bcrypt.compare(p, h)`: verification succeeds exactly when
`h` is the hash of `p`. -/
def bcryptCompare (p h : String) : Bool :=
  bcryptHash p = h

/-- The user schema's role enum: `['user', 'admin']`. -/
def validRole (r : String) : Bool :=
  r = "user" || r = "admin"

/-- Server-side session state attached to a request
(`req.session.userId`, `req.session.role`). -/
structure Session where
  userId : Option Nat
  role : Option String
deriving DecidableEq, Repr

/-- A JSON response from a bus route: status, message, and the bus
payload when the handler includes one. -/
structure BusResponse where
  status : Nat
  message : String
  bus : Option Bus
deriving DecidableEq, Repr

/-- A JSON response from an auth route: status, message, and the
role/userId fields when the handler includes them. -/
structure AuthResponse where
  status : Nat
  message : String
  role : Option String
  userId : Option Nat
deriving DecidableEq, Repr

/-- The update document built from a request body after Mongoose strips
`undefined` keys and casts the remaining values; an outer `none` means
the path is not set, an inner `none` sets it to null. -/
structure BusUpdate where
  busNumber : Option (Option String)
  seats : Option (Option ℚ)
  route : Option (Option String)
  departurePoint : Option (Option String)
  destinationPoint : Option (Option String)
  departureTime : Option (Option String)
deriving DecidableEq, Repr

/-- Cast one update key: an absent key is stripped (outer `none` kept),
a present value casts per the path type — possibly to null — and a
CastError rejects the whole document. -/
def castUpd {α : Type} (f : JVal → Option (Option α)) :
    Option JVal → Option (Option (Option α))
  | none => some none
  | some v => (f v).map some

/-- Cast a whole update document for `findByIdAndUpdate`; `none` means a
`CastError` is thrown before the query runs. -/
def castUpdate (b : BusBody) : Option BusUpdate := do
  let bn ← castUpd castStr b.busNumber
  let st ← castUpd castNum b.seats
  let rt ← castUpd castStr b.route
  let dp ← castUpd castStr b.departurePoint
  let sp ← castUpd castStr b.destinationPoint
  let dt ← castUpd castStr b.departureTime
  pure ⟨bn, st, rt, dp, sp, dt⟩

/-- The `required` re-check `runValidators` applies to a String path an
update sets: a set value must be a non-null non-empty string; a path
not being set is not validated. -/
def validSetString : Option (Option String) → Bool
  | none => true
  | some (some s) => s ≠ ""
  | some none => false

/-- The `required` re-check `runValidators` applies to a Number path an
update sets: a set value must be non-null. -/
def validSetNum : Option (Option ℚ) → Bool
  | none => true
  | some (some _) => true
  | some none => false

/-- `runValidators` over a whole update document: every path being set
satisfies its required validator. -/
def validUpdate (u : BusUpdate) : Bool :=
  validSetString u.busNumber && validSetNum u.seats &&
  validSetString u.route && validSetString u.departurePoint &&
  validSetString u.destinationPoint && validSetString u.departureTime

/-- Apply an update document to a stored record: provided keys replace
the stored value, stripped keys leave it untouched. -/
def applyUpdate (u : BusUpdate) (b : Bus) : Bus :=
  { b with
    busNumber := u.busNumber.getD b.busNumber
    seats := u.seats.getD b.seats
    route := u.route.getD b.route
    departurePoint := u.departurePoint.getD b.departurePoint
    destinationPoint := u.destinationPoint.getD b.destinationPoint
    departureTime := u.departureTime.getD b.departureTime }

/-- `GET /api/buses` (identical in both variants): 200 with the whole
collection. -/
def listBuses (s : BusStore) : Nat × List Bus :=
  (200, s.buses)

end APIRoute

namespace APIRoute.ServerJs

open APIRoute

/-- `authRequired` of src/server.js: 401 when `req.session.userId` is
absent, otherwise pass through. -/
def authRequired (s : Session) : Option BusResponse :=
  if s.userId.isNone then
    some ⟨401, "Autentimine on vajalik", none⟩
  else
    none

/-- `adminRequired` of src/server.js: 403 when `req.session.role` is
absent or differs from `'admin'`, otherwise pass through. -/
def adminRequired (s : Session) : Option BusResponse :=
  if s.role.isNone || !(s.role = some "admin") then
    some ⟨403, "Juurdepääs keelatud. Vajalik administraatori roll.", none⟩
  else
    none

/-- `POST /api/buses` of src/server.js: auth and admin gates, then a
truthiness check of all six fields (400 on failure), then schema
validation and insert (500 on a cast failure, 201 on success). -/
def createBus (sess : Session) (body : BusBody) (store : BusStore) :
    BusResponse × BusStore :=
  match authRequired sess with
  | some r => (r, store)
  | none =>
  match adminRequired sess with
  | some r => (r, store)
  | none =>
    if !truthy body.busNumber || !truthy body.seats || !truthy body.route ||
        !truthy body.departurePoint || !truthy body.destinationPoint ||
        !truthy body.departureTime then
      (⟨400, "Palun täitke kõik väljad", none⟩, store)
    else
      match validateBus body with
      | none => (⟨500, "Serveri viga bussi lisamisel", none⟩, store)
      | some d =>
        let nb := mkBus store.nextId d
        (⟨201, "Buss on edukalt lisatud", some nb⟩,
          ⟨store.buses ++ [nb], store.nextId + 1⟩)

/-- `PUT /api/buses/:id` of src/server.js: gates, then
`findByIdAndUpdate` with `runValidators` — the update document is cast
first (500 on `CastError`), the required validators re-checked on every
path the update sets (500 on a null or, for a String path, empty
value), the record looked up (404 when absent), the provided fields
overwritten and the updated record returned with 200. -/
def updateBus (sess : Session) (id : Nat) (body : BusBody)
    (store : BusStore) : BusResponse × BusStore :=
  match authRequired sess with
  | some r => (r, store)
  | none =>
  match adminRequired sess with
  | some r => (r, store)
  | none =>
    match castUpdate body with
    | none => (⟨500, "Serveri viga bussi muutmisel", none⟩, store)
    | some u =>
      if validUpdate u then
        match findBus id store with
        | none => (⟨404, "Buss ei leitud", none⟩, store)
        | some b =>
          let b' := applyUpdate u b
          (⟨200, "Buss on uuendatud", some b'⟩,
            ⟨store.buses.map (fun x => if x.id = id then applyUpdate u x else x),
              store.nextId⟩)
      else (⟨500, "Serveri viga bussi muutmisel", none⟩, store)

/-- `DELETE /api/buses/:id` of src/server.js: gates, then
`findByIdAndDelete` — 404 when absent, otherwise the record is removed
and 200 is returned with a confirmation message only. -/
def deleteBus (sess : Session) (id : Nat) (store : BusStore) :
    BusResponse × BusStore :=
  match authRequired sess with
  | some r => (r, store)
  | none =>
  match adminRequired sess with
  | some r => (r, store)
  | none =>
    match findBus id store with
    | none => (⟨404, "Bussi ei leitud", none⟩, store)
    | some _ =>
      (⟨200, "Buss kustutatud", none⟩,
        ⟨store.buses.filter (fun b => b.id ≠ id), store.nextId⟩)

/-- `POST /register` of src/server.js: duplicate check by username, then
`role: role || 'user'` is stored subject to the schema's enum (an
invalid non-empty role rejects the save, caught as 500); on success the
session is established and 201 returned. -/
def register (username password : String) (role : Option String)
    (sess : Session) (store : UserStore) :
    AuthResponse × UserStore × Session :=
  match findUser username store with
  | some _ => (⟨400, "Kasutaja on juba olemas", none, none⟩, store, sess)
  | none =>
    let roleEff := match role with
      | none => "user"
      | some r => if r = "" then "user" else r
    if validRole roleEff then
      let nu : User := ⟨store.nextId, username, bcryptHash password, roleEff⟩
      (⟨201, "Kasutaja loodud", some nu.role, some nu.id⟩,
        ⟨store.users ++ [nu], store.nextId + 1⟩,
        ⟨some nu.id, some nu.role⟩)
    else
      (⟨500, "Viga registreerimisel", none, none⟩, store, sess)

/-- The single credential check of `POST /login`:
`!user || !(await bcrypt.compare(...))` — `some u` exactly when the
username exists and verification succeeds. -/
def loginAuth (username password : String) (store : UserStore) :
    Option User :=
  match findUser username store with
  | none => none
  | some u => if bcryptCompare password u.passwordHash then some u else none

/-- `POST /login` of src/server.js: one 401 branch covers both an
unknown username and a failed hash verification; on success the session
is established and 200 returned. -/
def login (username password : String) (sess : Session)
    (store : UserStore) : AuthResponse × Session :=
  match loginAuth username password store with
  | none => (⟨401, "Vale kasutajanimi või parool", none, none⟩, sess)
  | some u =>
    (⟨200, "Sisselogimine õnnestus", some u.role, some u.id⟩,
      ⟨some u.id, some u.role⟩)

end APIRoute.ServerJs

namespace APIRoute.Part001

open APIRoute

/-- `authRequired` of src/unnamed/part_001: 401 when
`req.session.userId` is absent, otherwise pass through. -/
def authRequired (s : Session) : Option BusResponse :=
  if s.userId.isNone then
    some ⟨401, "Authentication required", none⟩
  else
    none

/-- `adminRequired` of src/unnamed/part_001: 403 when
`req.session.role !== 'admin'` (an absent role is not `'admin'`),
otherwise pass through. -/
def adminRequired (s : Session) : Option BusResponse :=
  if !(s.role = some "admin") then
    some ⟨403, "Admin access required", none⟩
  else
    none

/-- `POST /api/buses` of src/unnamed/part_001: auth and admin gates,
then the document is built and saved with no handler-level field check —
a schema violation rejects the save and is caught as 500. -/
def createBus (sess : Session) (body : BusBody) (store : BusStore) :
    BusResponse × BusStore :=
  match authRequired sess with
  | some r => (r, store)
  | none =>
  match adminRequired sess with
  | some r => (r, store)
  | none =>
    match validateBus body with
    | none => (⟨500, "Error adding bus", none⟩, store)
    | some d =>
      let nb := mkBus store.nextId d
      (⟨201, "Bus added successfully", some nb⟩,
        ⟨store.buses ++ [nb], store.nextId + 1⟩)

/-- `PUT /api/buses/:id` of src/unnamed/part_001: gates, then
`findByIdAndUpdate` without `runValidators` — the update document is
cast first (500 on `CastError`), the record looked up (404 when
absent), and the provided cast values — including nulls — overwritten
with 200 returned. -/
def updateBus (sess : Session) (id : Nat) (body : BusBody)
    (store : BusStore) : BusResponse × BusStore :=
  match authRequired sess with
  | some r => (r, store)
  | none =>
  match adminRequired sess with
  | some r => (r, store)
  | none =>
    match castUpdate body with
    | none => (⟨500, "Error updating bus", none⟩, store)
    | some u =>
      match findBus id store with
      | none => (⟨404, "Bus not found", none⟩, store)
      | some b =>
        let b' := applyUpdate u b
        (⟨200, "Bus updated successfully", some b'⟩,
          ⟨store.buses.map (fun x => if x.id = id then applyUpdate u x else x),
            store.nextId⟩)

/-- `DELETE /api/buses/:id` of src/unnamed/part_001: gates, then
`findByIdAndDelete` — 404 when absent, otherwise the record is removed
and 200 returned with a confirmation message only (no bus payload). -/
def deleteBus (sess : Session) (id : Nat) (store : BusStore) :
    BusResponse × BusStore :=
  match authRequired sess with
  | some r => (r, store)
  | none =>
  match adminRequired sess with
  | some r => (r, store)
  | none =>
    match findBus id store with
    | none => (⟨404, "Bus not found", none⟩, store)
    | some _ =>
      (⟨200, "Bus deleted successfully", none⟩,
        ⟨store.buses.filter (fun b => b.id ≠ id), store.nextId⟩)

/-- `POST /register` of src/unnamed/part_001: duplicate check by
username, then the supplied role is stored as-is subject to the schema —
absent role takes the default `'user'`, a role outside the enum rejects
the save, caught as 500; on success the session is established and 201
returned. -/
def register (username password : String) (role : Option String)
    (sess : Session) (store : UserStore) :
    AuthResponse × UserStore × Session :=
  match findUser username store with
  | some _ => (⟨400, "User already exists", none, none⟩, store, sess)
  | none =>
    match role with
    | none =>
      let nu : User := ⟨store.nextId, username, bcryptHash password, "user"⟩
      (⟨201, "User registered successfully", some nu.role, some nu.id⟩,
        ⟨store.users ++ [nu], store.nextId + 1⟩,
        ⟨some nu.id, some nu.role⟩)
    | some r =>
      if validRole r then
        let nu : User := ⟨store.nextId, username, bcryptHash password, r⟩
        (⟨201, "User registered successfully", some nu.role, some nu.id⟩,
          ⟨store.users ++ [nu], store.nextId + 1⟩,
          ⟨some nu.id, some nu.role⟩)
      else
        (⟨500, "Error registering user", none, none⟩, store, sess)

/-- `POST /login` of src/unnamed/part_001: one 401 branch covers both
an unknown username and a failed hash verification; on success the
session is established and 200 returned. -/
def login (username password : String) (sess : Session)
    (store : UserStore) : AuthResponse × Session :=
  match ServerJs.loginAuth username password store with
  | none => (⟨401, "Invalid username or password", none, none⟩, sess)
  | some u =>
    (⟨200, "Login successful", some u.role, some u.id⟩,
      ⟨some u.id, some u.role⟩)

/-- `POST /logout` of src/unnamed/part_001: `req.session.destroy` — the
session state is discarded (the error branch of `destroy` does not occur
in the in-memory model) and 200 returned. -/
def logout (_sess : Session) : (Nat × String) × Session :=
  ((200, "Logout successful"), ⟨none, none⟩)

end APIRoute.Part001

namespace APIRoute

/-- Some of the six bus fields is absent from the request body. -/
def someFieldMissing (b : BusBody) : Prop :=
  b.busNumber = none ∨ b.seats = none ∨ b.route = none ∨
  b.departurePoint = none ∨ b.destinationPoint = none ∨ b.departureTime = none

instance (b : BusBody) : Decidable (someFieldMissing b) := by
  unfold someFieldMissing
  infer_instance

/-- Schema validation of a new bus rejects whenever a field is absent. -/
theorem validateBus_eq_none_of_missing {b : BusBody}
    (h : someFieldMissing b) : validateBus b = none := by
  unfold validateBus
  rcases h with h | h | h | h | h | h <;> rw [h]
  · rfl
  · cases reqString b.busNumber <;> rfl
  · cases reqString b.busNumber <;> cases reqNum b.seats <;> rfl
  · cases reqString b.busNumber <;> cases reqNum b.seats <;>
      cases reqString b.route <;> rfl
  · cases reqString b.busNumber <;> cases reqNum b.seats <;>
      cases reqString b.route <;> cases reqString b.departurePoint <;> rfl
  · cases reqString b.busNumber <;> cases reqNum b.seats <;>
      cases reqString b.route <;> cases reqString b.departurePoint <;>
      cases reqString b.destinationPoint <;> rfl

/-- A successfully cast update document agrees with the body key by key. -/
theorem castUpdate_fields {body : BusBody} {u : BusUpdate}
    (h : castUpdate body = some u) :
    castUpd castStr body.busNumber = some u.busNumber ∧
    castUpd castNum body.seats = some u.seats ∧
    castUpd castStr body.route = some u.route ∧
    castUpd castStr body.departurePoint = some u.departurePoint ∧
    castUpd castStr body.destinationPoint = some u.destinationPoint ∧
    castUpd castStr body.departureTime = some u.departureTime := by
  unfold castUpdate at h
  cases h1 : castUpd castStr body.busNumber <;> rw [h1] at h <;>
    simp only [Option.bind_eq_bind, Option.none_bind, Option.some_bind] at h
  · cases h
  cases h2 : castUpd castNum body.seats <;> rw [h2] at h <;>
    simp only [Option.none_bind, Option.some_bind] at h
  · cases h
  cases h3 : castUpd castStr body.route <;> rw [h3] at h <;>
    simp only [Option.none_bind, Option.some_bind] at h
  · cases h
  cases h4 : castUpd castStr body.departurePoint <;> rw [h4] at h <;>
    simp only [Option.none_bind, Option.some_bind] at h
  · cases h
  cases h5 : castUpd castStr body.destinationPoint <;> rw [h5] at h <;>
    simp only [Option.none_bind, Option.some_bind] at h
  · cases h
  cases h6 : castUpd castStr body.departureTime <;> rw [h6] at h <;>
    simp only [Option.none_bind, Option.some_bind] at h
  · cases h
  cases h
  exact ⟨rfl, rfl, rfl, rfl, rfl, rfl⟩

theorem ServerJs.authRequired_pass_js {s : Session} {uid : Nat}
    (h : s.userId = some uid) : ServerJs.authRequired s = none := by
  simp [ServerJs.authRequired, h]

theorem ServerJs.adminRequired_pass_js {s : Session}
    (h : s.role = some "admin") : ServerJs.adminRequired s = none := by
  simp [ServerJs.adminRequired, h]

theorem ServerJs.adminRequired_fail_js {s : Session}
    (h : s.role ≠ some "admin") :
    ServerJs.adminRequired s =
      some ⟨403, "Juurdepääs keelatud. Vajalik administraatori roll.", none⟩ := by
  have hd : (decide (s.role = some "admin")) = false := decide_eq_false h
  simp [ServerJs.adminRequired, hd]

theorem Part001.authRequired_pass_p1 {s : Session} {uid : Nat}
    (h : s.userId = some uid) : Part001.authRequired s = none := by
  simp [Part001.authRequired, h]

theorem Part001.adminRequired_pass_p1 {s : Session}
    (h : s.role = some "admin") : Part001.adminRequired s = none := by
  simp [Part001.adminRequired, h]

theorem Part001.adminRequired_fail_p1 {s : Session}
    (h : s.role ≠ some "admin") :
    Part001.adminRequired s = some ⟨403, "Admin access required", none⟩ := by
  have hd : (decide (s.role = some "admin")) = false := decide_eq_false h
  simp [Part001.adminRequired, hd]

end APIRoute

namespace APIRoute.Fix

open APIRoute

def adminSess : Session := ⟨some 1, some "admin"⟩

def userSess : Session := ⟨some 2, some "user"⟩

def emptyBuses : BusStore := ⟨[], 0⟩

def emptyUsers : UserStore := ⟨[], 0⟩

def fullBody : BusBody :=
  ⟨some (JVal.vStr "12A"), some (JVal.vNum 40), some (JVal.vStr "R1"),
   some (JVal.vStr "A"), some (JVal.vStr "B"), some (JVal.vStr "08:00")⟩

def missingBody : BusBody := { fullBody with busNumber := none }

def zeroSeatsBody : BusBody := { fullBody with seats := some (JVal.vNum 0) }

def emptyBody : BusBody := ⟨none, none, none, none, none, none⟩

def oneBus : Bus :=
  ⟨0, some "12A", some 40, some "R1", some "A", some "B", some "08:00"⟩

def oneBusStore : BusStore := ⟨[oneBus], 1⟩

def aliceStore : UserStore := ⟨[⟨0, "alice", bcryptHash "pw", "user"⟩], 1⟩

end APIRoute.Fix

namespace APIRoute

/-- C4: every Create/Update/Delete request carried by an authenticated
session (userId present) whose role is not "admin" — including an
absent role — is answered 403 Forbidden, never 401, in both server
variants. -/
theorem C4_authenticated_non_admin_forbidden
    (sess : Session) (uid : Nat) (body : BusBody) (id : Nat)
    (store : BusStore)
    (hu : sess.userId = some uid) (hr : sess.role ≠ some "admin") :
    (ServerJs.createBus sess body store).1.status = 403 ∧
    (ServerJs.updateBus sess id body store).1.status = 403 ∧
    (ServerJs.deleteBus sess id store).1.status = 403 ∧
    (Part001.createBus sess body store).1.status = 403 ∧
    (Part001.updateBus sess id body store).1.status = 403 ∧
    (Part001.deleteBus sess id store).1.status = 403 := by
  refine ⟨?_, ?_, ?_, ?_, ?_, ?_⟩ <;>
    simp [ServerJs.createBus, ServerJs.updateBus, ServerJs.deleteBus,
      Part001.createBus, Part001.updateBus, Part001.deleteBus,
      ServerJs.authRequired_pass_js hu, Part001.authRequired_pass_p1 hu,
      ServerJs.adminRequired_fail_js hr, Part001.adminRequired_fail_p1 hr]

/-- C4 witness: a "user"-role session gets 403 from all six handlers at
a concrete input. -/
theorem C4_witness :
    (ServerJs.createBus Fix.userSess Fix.fullBody Fix.emptyBuses).1.status = 403 ∧
    (ServerJs.updateBus Fix.userSess 0 Fix.fullBody Fix.emptyBuses).1.status = 403 ∧
    (ServerJs.deleteBus Fix.userSess 0 Fix.emptyBuses).1.status = 403 ∧
    (Part001.createBus Fix.userSess Fix.fullBody Fix.emptyBuses).1.status = 403 ∧
    (Part001.updateBus Fix.userSess 0 Fix.fullBody Fix.emptyBuses).1.status = 403 ∧
    (Part001.deleteBus Fix.userSess 0 Fix.emptyBuses).1.status = 403 :=
  C4_authenticated_non_admin_forbidden Fix.userSess 2 Fix.fullBody 0
    Fix.emptyBuses (by decide) (by decide)

/-- C5: Logout destroys the session (userId and role cleared), and every
subsequent Create/Update/Delete carried by that session is answered 401
with the store untouched, whatever the session's role was before. -/
theorem C5_logout_then_admin_ops_unauthenticated
    (sess : Session) (body : BusBody) (id : Nat) (store : BusStore) :
    (Part001.logout sess).1.1 = 200 ∧
    (Part001.logout sess).2 = ⟨none, none⟩ ∧
    Part001.createBus (Part001.logout sess).2 body store =
      (⟨401, "Authentication required", none⟩, store) ∧
    Part001.updateBus (Part001.logout sess).2 id body store =
      (⟨401, "Authentication required", none⟩, store) ∧
    Part001.deleteBus (Part001.logout sess).2 id store =
      (⟨401, "Authentication required", none⟩, store) :=
  ⟨rfl, rfl, rfl, rfl, rfl⟩

/-- C6: a failed login — whether the username is unknown or hash
verification fails — takes the single 401 branch, so both causes
produce the identical response body (per variant) and leave the session
unchanged. -/
theorem C6_login_failures_indistinguishable
    (store : UserStore) (sess : Session) (username password : String) :
    (findUser username store = none →
      ServerJs.loginAuth username password store = none) ∧
    (∀ u, findUser username store = some u →
      bcryptCompare password u.passwordHash = false →
      ServerJs.loginAuth username password store = none) ∧
    (ServerJs.loginAuth username password store = none →
      ServerJs.login username password sess store =
        (⟨401, "Vale kasutajanimi või parool", none, none⟩, sess) ∧
      Part001.login username password sess store =
        (⟨401, "Invalid username or password", none, none⟩, sess)) := by
  refine ⟨?_, ?_, ?_⟩
  · intro h
    simp [ServerJs.loginAuth, h]
  · intro u hu hc
    simp [ServerJs.loginAuth, hu, hc]
  · intro h
    exact ⟨by simp [ServerJs.login, h], by simp [Part001.login, h]⟩

/-- C6 witness: at a concrete store, an unknown username and a wrong
password for an existing user produce the same 401 responses. -/
theorem C6_witness :
    ServerJs.login "bob" "pw" ⟨none, none⟩ Fix.aliceStore =
      (⟨401, "Vale kasutajanimi või parool", none, none⟩, ⟨none, none⟩) ∧
    Part001.login "alice" "bad" ⟨none, none⟩ Fix.aliceStore =
      (⟨401, "Invalid username or password", none, none⟩, ⟨none, none⟩) := by
  refine ⟨?_, ?_⟩
  · exact ((C6_login_failures_indistinguishable Fix.aliceStore ⟨none, none⟩
      "bob" "pw").2.2
      ((C6_login_failures_indistinguishable Fix.aliceStore ⟨none, none⟩
        "bob" "pw").1 (by decide))).1
  · exact ((C6_login_failures_indistinguishable Fix.aliceStore ⟨none, none⟩
      "alice" "bad").2.2
      ((C6_login_failures_indistinguishable Fix.aliceStore ⟨none, none⟩
        "alice" "bad").2.1 ⟨0, "alice", bcryptHash "pw", "user"⟩
        (by decide) (by decide))).2

end APIRoute

namespace APIRoute

/-- C1 counterexample: in the part_001 variant, an authenticated admin
Create request with `busNumber` absent is answered 500, not 400, so the
claimed "missing field yields 400" fails on this variant (the collection
is still unchanged). -/
theorem C1_counterexample :
    (Part001.createBus Fix.adminSess Fix.missingBody Fix.emptyBuses).1.status = 500 ∧
    ¬ (Part001.createBus Fix.adminSess Fix.missingBody Fix.emptyBuses).1.status = 400 ∧
    (Part001.createBus Fix.adminSess Fix.missingBody Fix.emptyBuses).2 = Fix.emptyBuses := by
  decide

/-- C1 amended: for an authenticated admin Create request with some of
the six fields absent, the server.js variant answers 400 with the
generic fill-all-fields message and leaves the collection unchanged,
while the part_001 variant has no handler-level check and answers 500
from schema validation, also leaving the collection unchanged. -/
theorem C1_create_missing_field
    (sess : Session) (uid : Nat) (body : BusBody) (store : BusStore)
    (hu : sess.userId = some uid) (hr : sess.role = some "admin")
    (hm : someFieldMissing body) :
    ServerJs.createBus sess body store =
      (⟨400, "Palun täitke kõik väljad", none⟩, store) ∧
    (Part001.createBus sess body store).1.status = 500 ∧
    (Part001.createBus sess body store).2 = store := by
  have hcond : (!truthy body.busNumber || !truthy body.seats ||
      !truthy body.route || !truthy body.departurePoint ||
      !truthy body.destinationPoint || !truthy body.departureTime) = true := by
    rcases hm with h | h | h | h | h | h <;> simp [h, truthy]
  have hv := validateBus_eq_none_of_missing hm
  refine ⟨?_, ?_, ?_⟩
  · simp [ServerJs.createBus, ServerJs.authRequired_pass_js hu,
      ServerJs.adminRequired_pass_js hr, hcond]
  · simp [Part001.createBus, Part001.authRequired_pass_p1 hu,
      Part001.adminRequired_pass_p1 hr, hv]
  · simp [Part001.createBus, Part001.authRequired_pass_p1 hu,
      Part001.adminRequired_pass_p1 hr, hv]

/-- C1 witness: at a concrete admin session and a body missing
`busNumber`, the server.js variant answers 400 and the part_001 variant
500, neither inserting a record. -/
theorem C1_witness :
    ServerJs.createBus Fix.adminSess Fix.missingBody Fix.emptyBuses =
      (⟨400, "Palun täitke kõik väljad", none⟩, Fix.emptyBuses) ∧
    (Part001.createBus Fix.adminSess Fix.missingBody Fix.emptyBuses).1.status = 500 ∧
    (Part001.createBus Fix.adminSess Fix.missingBody Fix.emptyBuses).2 = Fix.emptyBuses :=
  C1_create_missing_field Fix.adminSess 1 Fix.missingBody Fix.emptyBuses
    rfl rfl (by decide)

/-- C2 counterexample: registering with the invalid role "superadmin"
does not succeed with role "user" — the schema's enum rejects the save
and both variants answer 500 with no user persisted. -/
theorem C2_counterexample :
    (ServerJs.register "alice" "pw" (some "superadmin") ⟨none, none⟩ Fix.emptyUsers).1.status = 500 ∧
    (ServerJs.register "alice" "pw" (some "superadmin") ⟨none, none⟩ Fix.emptyUsers).2.1 = Fix.emptyUsers ∧
    (Part001.register "alice" "pw" (some "superadmin") ⟨none, none⟩ Fix.emptyUsers).1.status = 500 ∧
    (Part001.register "alice" "pw" (some "superadmin") ⟨none, none⟩ Fix.emptyUsers).2.1 = Fix.emptyUsers := by
  decide

/-- C2 amended: with a fresh username, registration with the role absent
persists the user with role "user" (201); registration with a role
outside the enum (non-empty in the server.js variant, any in part_001)
fails with 500, persisting nothing and leaving the session unchanged. -/
theorem C2_register_role_default
    (username password : String) (sess : Session) (store : UserStore)
    (hnew : findUser username store = none) :
    (ServerJs.register username password none sess store).1.status = 201 ∧
    (ServerJs.register username password none sess store).2.1.users =
      store.users ++ [⟨store.nextId, username, bcryptHash password, "user"⟩] ∧
    (Part001.register username password none sess store).1.status = 201 ∧
    (Part001.register username password none sess store).2.1.users =
      store.users ++ [⟨store.nextId, username, bcryptHash password, "user"⟩] ∧
    (∀ r, r ≠ "" → validRole r = false →
      ServerJs.register username password (some r) sess store =
        (⟨500, "Viga registreerimisel", none, none⟩, store, sess)) ∧
    (∀ r, validRole r = false →
      Part001.register username password (some r) sess store =
        (⟨500, "Error registering user", none, none⟩, store, sess)) := by
  refine ⟨?_, ?_, ?_, ?_, ?_, ?_⟩
  · simp [ServerJs.register, hnew, validRole]
  · simp [ServerJs.register, hnew, validRole]
  · simp [Part001.register, hnew]
  · simp [Part001.register, hnew]
  · intro r hr1 hr2
    simp [ServerJs.register, hnew, hr1, hr2]
  · intro r hr2
    simp [Part001.register, hnew, hr2]

/-- C2 witness: at a fresh store, role-absent registration yields 201
with role "user", and role "superadmin" yields 500 in both variants. -/
theorem C2_witness :
    (ServerJs.register "alice" "pw" none ⟨none, none⟩ Fix.emptyUsers).1.status = 201 ∧
    (ServerJs.register "alice" "pw" none ⟨none, none⟩ Fix.emptyUsers).2.1.users =
      Fix.emptyUsers.users ++ [⟨Fix.emptyUsers.nextId, "alice", bcryptHash "pw", "user"⟩] ∧
    (Part001.register "alice" "pw" none ⟨none, none⟩ Fix.emptyUsers).1.status = 201 ∧
    (Part001.register "alice" "pw" none ⟨none, none⟩ Fix.emptyUsers).2.1.users =
      Fix.emptyUsers.users ++ [⟨Fix.emptyUsers.nextId, "alice", bcryptHash "pw", "user"⟩] ∧
    (∀ r, r ≠ "" → validRole r = false →
      ServerJs.register "alice" "pw" (some r) ⟨none, none⟩ Fix.emptyUsers =
        (⟨500, "Viga registreerimisel", none, none⟩, Fix.emptyUsers, ⟨none, none⟩)) ∧
    (∀ r, validRole r = false →
      Part001.register "alice" "pw" (some r) ⟨none, none⟩ Fix.emptyUsers =
        (⟨500, "Error registering user", none, none⟩, Fix.emptyUsers, ⟨none, none⟩)) :=
  C2_register_role_default "alice" "pw" ⟨none, none⟩ Fix.emptyUsers (by decide)

end APIRoute

namespace APIRoute

/-- The server.js Update on an existing id, for a cast update document
that passes the required re-checks: 200 with the updated record. -/
theorem ServerJs.updateBus_found_js {sess : Session} {uid id : Nat}
    {body : BusBody} {store : BusStore} {u : BusUpdate} {b : Bus}
    (hu : sess.userId = some uid) (hr : sess.role = some "admin")
    (hc : castUpdate body = some u) (hvu : validUpdate u = true)
    (hf : findBus id store = some b) :
    ServerJs.updateBus sess id body store =
      (⟨200, "Buss on uuendatud", some (applyUpdate u b)⟩,
        ⟨store.buses.map (fun x => if x.id = id then applyUpdate u x else x),
          store.nextId⟩) := by
  simp [ServerJs.updateBus, ServerJs.authRequired_pass_js hu,
    ServerJs.adminRequired_pass_js hr, hc, hvu, hf]

/-- The part_001 Update on an existing id, for a cast update document
(no validators run): 200 with the updated record. -/
theorem Part001.updateBus_found_p1 {sess : Session} {uid id : Nat}
    {body : BusBody} {store : BusStore} {u : BusUpdate} {b : Bus}
    (hu : sess.userId = some uid) (hr : sess.role = some "admin")
    (hc : castUpdate body = some u) (hf : findBus id store = some b) :
    Part001.updateBus sess id body store =
      (⟨200, "Bus updated successfully", some (applyUpdate u b)⟩,
        ⟨store.buses.map (fun x => if x.id = id then applyUpdate u x else x),
          store.nextId⟩) := by
  simp [Part001.updateBus, Part001.authRequired_pass_p1 hu,
    Part001.adminRequired_pass_p1 hr, hc, hf]

/-- C3: for an authenticated admin Update in either variant, the update
document is first cast against the schema's declared types (a
non-numeric seats string rejects with 500 and persists nothing); for a
well-typed document whose set paths also pass the required re-checks, a
missing id answers 404 with the store unchanged and an existing id
persists the overwritten fields and answers 200 with the updated
record; in the server.js variant `runValidators` additionally rejects
with 500 a document setting some path to a required-invalid value. -/
theorem C3_update_contract
    (sess : Session) (uid : Nat) (id : Nat) (body : BusBody)
    (store : BusStore)
    (hu : sess.userId = some uid) (hr : sess.role = some "admin") :
    (castUpdate body = none →
      ServerJs.updateBus sess id body store =
        (⟨500, "Serveri viga bussi muutmisel", none⟩, store) ∧
      Part001.updateBus sess id body store =
        (⟨500, "Error updating bus", none⟩, store)) ∧
    (∀ u, castUpdate body = some u → validUpdate u = true →
      (findBus id store = none →
        ServerJs.updateBus sess id body store =
          (⟨404, "Buss ei leitud", none⟩, store) ∧
        Part001.updateBus sess id body store =
          (⟨404, "Bus not found", none⟩, store)) ∧
      (∀ b, findBus id store = some b →
        ServerJs.updateBus sess id body store =
          (⟨200, "Buss on uuendatud", some (applyUpdate u b)⟩,
            ⟨store.buses.map (fun x => if x.id = id then applyUpdate u x else x),
              store.nextId⟩) ∧
        Part001.updateBus sess id body store =
          (⟨200, "Bus updated successfully", some (applyUpdate u b)⟩,
            ⟨store.buses.map (fun x => if x.id = id then applyUpdate u x else x),
              store.nextId⟩))) ∧
    (∀ u, castUpdate body = some u → validUpdate u = false →
      ServerJs.updateBus sess id body store =
        (⟨500, "Serveri viga bussi muutmisel", none⟩, store)) := by
  refine ⟨?_, ?_, ?_⟩
  · intro hc
    constructor <;>
      simp [ServerJs.updateBus, Part001.updateBus,
        ServerJs.authRequired_pass_js hu, ServerJs.adminRequired_pass_js hr,
        Part001.authRequired_pass_p1 hu, Part001.adminRequired_pass_p1 hr, hc]
  · intro u hc hvu
    refine ⟨?_, ?_⟩
    · intro hf
      constructor <;>
        simp [ServerJs.updateBus, Part001.updateBus,
          ServerJs.authRequired_pass_js hu, ServerJs.adminRequired_pass_js hr,
          Part001.authRequired_pass_p1 hu, Part001.adminRequired_pass_p1 hr,
          hc, hvu, hf]
    · intro b hf
      exact ⟨ServerJs.updateBus_found_js hu hr hc hvu hf,
        Part001.updateBus_found_p1 hu hr hc hf⟩
  · intro u hc hvu
    simp [ServerJs.updateBus, ServerJs.authRequired_pass_js hu,
      ServerJs.adminRequired_pass_js hr, hc, hvu]

/-- C3 witness: updating the one stored bus with a well-typed full body
answers 200 with the updated record, and the same request against an
empty store answers 404, in both variants. -/
theorem C3_witness :
    (ServerJs.updateBus Fix.adminSess 0 Fix.fullBody Fix.oneBusStore =
      (⟨200, "Buss on uuendatud",
          some (applyUpdate ⟨some (some "12A"), some (some 40),
            some (some "R1"), some (some "A"), some (some "B"),
            some (some "08:00")⟩ Fix.oneBus)⟩,
        ⟨Fix.oneBusStore.buses.map (fun x => if x.id = 0 then
            applyUpdate ⟨some (some "12A"), some (some 40),
              some (some "R1"), some (some "A"), some (some "B"),
              some (some "08:00")⟩ x else x),
          Fix.oneBusStore.nextId⟩) ∧
     Part001.updateBus Fix.adminSess 0 Fix.fullBody Fix.oneBusStore =
      (⟨200, "Bus updated successfully",
          some (applyUpdate ⟨some (some "12A"), some (some 40),
            some (some "R1"), some (some "A"), some (some "B"),
            some (some "08:00")⟩ Fix.oneBus)⟩,
        ⟨Fix.oneBusStore.buses.map (fun x => if x.id = 0 then
            applyUpdate ⟨some (some "12A"), some (some 40),
              some (some "R1"), some (some "A"), some (some "B"),
              some (some "08:00")⟩ x else x),
          Fix.oneBusStore.nextId⟩)) ∧
    (ServerJs.updateBus Fix.adminSess 0 Fix.fullBody Fix.emptyBuses =
      (⟨404, "Buss ei leitud", none⟩, Fix.emptyBuses) ∧
     Part001.updateBus Fix.adminSess 0 Fix.fullBody Fix.emptyBuses =
      (⟨404, "Bus not found", none⟩, Fix.emptyBuses)) :=
  ⟨((C3_update_contract Fix.adminSess 1 0 Fix.fullBody Fix.oneBusStore
      rfl rfl).2.1
      ⟨some (some "12A"), some (some 40), some (some "R1"), some (some "A"),
        some (some "B"), some (some "08:00")⟩
      (by decide) (by decide)).2 Fix.oneBus (by decide),
   ((C3_update_contract Fix.adminSess 1 0 Fix.fullBody Fix.emptyBuses
      rfl rfl).2.1
      ⟨some (some "12A"), some (some 40), some (some "R1"), some (some "A"),
        some (some "B"), some (some "08:00")⟩
      (by decide) (by decide)).1 (by decide)⟩

/-- C10: for an authenticated admin Update of an existing id, keys
absent from the payload are stripped from the update document and the
stored values preserved — in particular an Update with an empty payload
answers 200 and changes nothing, and any field omitted from an otherwise
cast body keeps its stored value in the updated record. -/
theorem C10_update_omitted_fields_preserved
    (sess : Session) (uid : Nat) (id : Nat) (store : BusStore) (b : Bus)
    (hu : sess.userId = some uid) (hr : sess.role = some "admin")
    (hf : findBus id store = some b) :
    Part001.updateBus sess id Fix.emptyBody store =
      (⟨200, "Bus updated successfully", some b⟩, store) ∧
    ServerJs.updateBus sess id Fix.emptyBody store =
      (⟨200, "Buss on uuendatud", some b⟩, store) ∧
    (∀ body u, castUpdate body = some u →
      (body.busNumber = none →
        (applyUpdate u b).busNumber = b.busNumber) ∧
      (body.seats = none → (applyUpdate u b).seats = b.seats) ∧
      (body.route = none → (applyUpdate u b).route = b.route) ∧
      (body.departurePoint = none →
        (applyUpdate u b).departurePoint = b.departurePoint) ∧
      (body.destinationPoint = none →
        (applyUpdate u b).destinationPoint = b.destinationPoint) ∧
      (body.departureTime = none →
        (applyUpdate u b).departureTime = b.departureTime)) := by
  have hempty : ∀ x : Bus,
      applyUpdate ⟨none, none, none, none, none, none⟩ x = x :=
    fun x => rfl
  have hmap : store.buses.map (fun x => if x.id = id then
      applyUpdate ⟨none, none, none, none, none, none⟩ x else x) =
      store.buses := by
    simp [hempty]
  have hce : castUpdate Fix.emptyBody =
      some ⟨none, none, none, none, none, none⟩ := rfl
  refine ⟨?_, ?_, ?_⟩
  · have h := Part001.updateBus_found_p1 hu hr hce hf
    rw [h, hmap, hempty b]
  · have h := ServerJs.updateBus_found_js hu hr hce rfl hf
    rw [h, hmap, hempty b]
  · intro body u hcu
    have hflds := castUpdate_fields hcu
    refine ⟨?_, ?_, ?_, ?_, ?_, ?_⟩ <;> intro hnone
    · have h := hflds.1; rw [hnone] at h
      simp [castUpd] at h
      simp [applyUpdate, ← h]
    · have h := hflds.2.1; rw [hnone] at h
      simp [castUpd] at h
      simp [applyUpdate, ← h]
    · have h := hflds.2.2.1; rw [hnone] at h
      simp [castUpd] at h
      simp [applyUpdate, ← h]
    · have h := hflds.2.2.2.1; rw [hnone] at h
      simp [castUpd] at h
      simp [applyUpdate, ← h]
    · have h := hflds.2.2.2.2.1; rw [hnone] at h
      simp [castUpd] at h
      simp [applyUpdate, ← h]
    · have h := hflds.2.2.2.2.2; rw [hnone] at h
      simp [castUpd] at h
      simp [applyUpdate, ← h]

end APIRoute

namespace APIRoute

/-- C10 witness: an empty-payload Update of the one stored bus answers
200 and leaves the record and the store unchanged in both variants. -/
theorem C10_witness :
    Part001.updateBus Fix.adminSess 0 Fix.emptyBody Fix.oneBusStore =
      (⟨200, "Bus updated successfully", some Fix.oneBus⟩, Fix.oneBusStore) ∧
    ServerJs.updateBus Fix.adminSess 0 Fix.emptyBody Fix.oneBusStore =
      (⟨200, "Buss on uuendatud", some Fix.oneBus⟩, Fix.oneBusStore) ∧
    (∀ body u, castUpdate body = some u →
      (body.busNumber = none →
        (applyUpdate u Fix.oneBus).busNumber = Fix.oneBus.busNumber) ∧
      (body.seats = none →
        (applyUpdate u Fix.oneBus).seats = Fix.oneBus.seats) ∧
      (body.route = none →
        (applyUpdate u Fix.oneBus).route = Fix.oneBus.route) ∧
      (body.departurePoint = none →
        (applyUpdate u Fix.oneBus).departurePoint = Fix.oneBus.departurePoint) ∧
      (body.destinationPoint = none →
        (applyUpdate u Fix.oneBus).destinationPoint = Fix.oneBus.destinationPoint) ∧
      (body.departureTime = none →
        (applyUpdate u Fix.oneBus).departureTime = Fix.oneBus.departureTime)) :=
  C10_update_omitted_fields_preserved Fix.adminSess 1 0 Fix.oneBusStore
    Fix.oneBus rfl rfl (by decide)

/-- C7 counterexample: a pair of sequential Register attempts with the
same username whose first attempt supplies an invalid role — the enum
rejects the save, so the first attempt answers 500 (not 201) and the
second also fails, refuting "exactly the first succeeds and the second
returns 400" over all sequential pairs. -/
theorem C7_counterexample :
    (Part001.register "alice" "pw" (some "superadmin") ⟨none, none⟩
      Fix.emptyUsers).1.status = 500 ∧
    ¬ (Part001.register "alice" "pw" (some "superadmin") ⟨none, none⟩
      Fix.emptyUsers).1.status = 201 ∧
    (Part001.register "alice" "pw2" (some "superadmin") ⟨none, none⟩
      (Part001.register "alice" "pw" (some "superadmin") ⟨none, none⟩
        Fix.emptyUsers).2.1).1.status = 500 := by
  decide

/-- C7 amended: with a username absent from the store and a first
Register attempt whose role is absent or valid (so its save succeeds),
the first attempt answers 201 and a second sequential attempt with the
same username — any password, role or session — answers 400 with the
duplicate-user message, persists no new record and leaves its session
untouched, in both variants. -/
theorem C7_duplicate_register
    (username p1 p2 : String) (role1 role2 : Option String)
    (sess1 sess2 : Session) (store : UserStore)
    (hnew : findUser username store = none)
    (hrole : ∀ r, role1 = some r → validRole r = true) :
    (Part001.register username p1 role1 sess1 store).1.status = 201 ∧
    Part001.register username p2 role2 sess2
        (Part001.register username p1 role1 sess1 store).2.1 =
      (⟨400, "User already exists", none, none⟩,
        (Part001.register username p1 role1 sess1 store).2.1, sess2) ∧
    (ServerJs.register username p1 role1 sess1 store).1.status = 201 ∧
    ServerJs.register username p2 role2 sess2
        (ServerJs.register username p1 role1 sess1 store).2.1 =
      (⟨400, "Kasutaja on juba olemas", none, none⟩,
        (ServerJs.register username p1 role1 sess1 store).2.1, sess2) := by
  have hstepP1 : ∃ rs,
      (Part001.register username p1 role1 sess1 store).1.status = 201 ∧
      (Part001.register username p1 role1 sess1 store).2.1 =
        ⟨store.users ++ [⟨store.nextId, username, bcryptHash p1, rs⟩],
          store.nextId + 1⟩ := by
    cases role1 with
    | none =>
      exact ⟨"user", by simp [Part001.register, hnew],
        by simp [Part001.register, hnew]⟩
    | some r =>
      have hvr : validRole r = true := hrole r rfl
      exact ⟨r, by simp [Part001.register, hnew, hvr],
        by simp [Part001.register, hnew, hvr]⟩
  have hstepJs : ∃ rs,
      (ServerJs.register username p1 role1 sess1 store).1.status = 201 ∧
      (ServerJs.register username p1 role1 sess1 store).2.1 =
        ⟨store.users ++ [⟨store.nextId, username, bcryptHash p1, rs⟩],
          store.nextId + 1⟩ := by
    cases role1 with
    | none =>
      exact ⟨"user", by simp [ServerJs.register, hnew, validRole],
        by simp [ServerJs.register, hnew, validRole]⟩
    | some r =>
      have hvr : validRole r = true := hrole r rfl
      have hrne : r ≠ "" := by
        intro h
        rw [h] at hvr
        simp [validRole] at hvr
      exact ⟨r, by simp [ServerJs.register, hnew, hrne, hvr],
        by simp [ServerJs.register, hnew, hrne, hvr]⟩
  have hdup : ∀ rs : String, findUser username
      (⟨store.users ++ [⟨store.nextId, username, bcryptHash p1, rs⟩],
        store.nextId + 1⟩ : UserStore) =
      some ⟨store.nextId, username, bcryptHash p1, rs⟩ := by
    intro rs
    unfold findUser at hnew ⊢
    rw [List.find?_append, hnew]
    simp
  obtain ⟨r1, hs1, hst1⟩ := hstepP1
  obtain ⟨r2, hs2, hst2⟩ := hstepJs
  refine ⟨hs1, ?_, hs2, ?_⟩
  · rw [hst1]
    simp [Part001.register, hdup r1]
  · rw [hst2]
    simp [ServerJs.register, hdup r2]

/-- C7 witness: registering "alice" twice on an empty store with the
role absent — first 201, second 400 duplicate with nothing persisted
and the second session untouched, in both variants. -/
theorem C7_witness :
    (Part001.register "alice" "pw" none ⟨none, none⟩ Fix.emptyUsers).1.status = 201 ∧
    Part001.register "alice" "pw2" none ⟨none, none⟩
        (Part001.register "alice" "pw" none ⟨none, none⟩ Fix.emptyUsers).2.1 =
      (⟨400, "User already exists", none, none⟩,
        (Part001.register "alice" "pw" none ⟨none, none⟩ Fix.emptyUsers).2.1,
        ⟨none, none⟩) ∧
    (ServerJs.register "alice" "pw" none ⟨none, none⟩ Fix.emptyUsers).1.status = 201 ∧
    ServerJs.register "alice" "pw2" none ⟨none, none⟩
        (ServerJs.register "alice" "pw" none ⟨none, none⟩ Fix.emptyUsers).2.1 =
      (⟨400, "Kasutaja on juba olemas", none, none⟩,
        (ServerJs.register "alice" "pw" none ⟨none, none⟩ Fix.emptyUsers).2.1,
        ⟨none, none⟩) :=
  C7_duplicate_register "alice" "pw" "pw2" none none ⟨none, none⟩ ⟨none, none⟩
    Fix.emptyUsers (by decide) (by simp)

end APIRoute

namespace APIRoute

/-- C8: round-trip over the bus collection in the part_001 variant —
an admin Create with a schema-valid body answers 201 with the record
carrying the store-assigned id and the cast fields, which List then
contains; Delete of that id answers 200 carrying only a confirmation
message (no bus payload), after which List contains no record with that
id and a second Delete answers 404. -/
theorem C8_create_delete_roundtrip
    (sess : Session) (uid : Nat) (body : BusBody) (d : BusData)
    (store : BusStore)
    (hu : sess.userId = some uid) (hr : sess.role = some "admin")
    (hv : validateBus body = some d)
    (hfresh : ∀ b ∈ store.buses, b.id ≠ store.nextId) :
    Part001.createBus sess body store =
      (⟨201, "Bus added successfully", some (mkBus store.nextId d)⟩,
        ⟨store.buses ++ [mkBus store.nextId d], store.nextId + 1⟩) ∧
    mkBus store.nextId d ∈
      (listBuses (Part001.createBus sess body store).2).2 ∧
    Part001.deleteBus sess store.nextId
        (Part001.createBus sess body store).2 =
      (⟨200, "Bus deleted successfully", none⟩,
        ⟨store.buses, store.nextId + 1⟩) ∧
    (∀ b ∈ (listBuses (Part001.deleteBus sess store.nextId
        (Part001.createBus sess body store).2).2).2,
      b.id ≠ store.nextId) ∧
    (Part001.deleteBus sess store.nextId (Part001.deleteBus sess
        store.nextId (Part001.createBus sess body store).2).2).1 =
      ⟨404, "Bus not found", none⟩ := by
  have hcreate : Part001.createBus sess body store =
      (⟨201, "Bus added successfully", some (mkBus store.nextId d)⟩,
        ⟨store.buses ++ [mkBus store.nextId d], store.nextId + 1⟩) := by
    simp [Part001.createBus, Part001.authRequired_pass_p1 hu,
      Part001.adminRequired_pass_p1 hr, hv]
  have hfind1 : findBus store.nextId
      (⟨store.buses ++ [mkBus store.nextId d], store.nextId + 1⟩ :
        BusStore) = some (mkBus store.nextId d) := by
    unfold findBus at *
    rw [List.find?_append]
    have h0 : store.buses.find? (fun b => b.id = store.nextId) = none := by
      rw [List.find?_eq_none]
      intro x hx
      simp [hfresh x hx]
    rw [h0]
    simp [mkBus]
  have hfa : store.buses.filter (fun b => !decide (b.id = store.nextId)) =
      store.buses :=
    List.filter_eq_self.mpr (fun a ha => by simp [hfresh a ha])
  have hfb : ([mkBus store.nextId d] : List Bus).filter
      (fun b => !decide (b.id = store.nextId)) = [] := by
    simp [mkBus]
  have hd2 : Part001.deleteBus sess store.nextId
      (Part001.createBus sess body store).2 =
      (⟨200, "Bus deleted successfully", none⟩,
        ⟨store.buses, store.nextId + 1⟩) := by
    rw [hcreate]
    simp [Part001.deleteBus, Part001.authRequired_pass_p1 hu,
      Part001.adminRequired_pass_p1 hr, hfind1, hfa, hfb]
  have hfind2 : findBus store.nextId
      (⟨store.buses, store.nextId + 1⟩ : BusStore) = none := by
    unfold findBus
    rw [List.find?_eq_none]
    intro x hx
    simp [hfresh x hx]
  refine ⟨hcreate, ?_, hd2, ?_, ?_⟩
  · rw [hcreate]
    simp [listBuses]
  · rw [hd2]
    simpa [listBuses] using hfresh
  · rw [hd2]
    simp [Part001.deleteBus, Part001.authRequired_pass_p1 hu,
      Part001.adminRequired_pass_p1 hr, hfind2]

/-- C8 witness: the round-trip at a concrete admin session, a concrete
full body and the empty store. -/
theorem C8_witness :
    Part001.createBus Fix.adminSess Fix.fullBody Fix.emptyBuses =
      (⟨201, "Bus added successfully",
          some (mkBus Fix.emptyBuses.nextId
            ⟨"12A", 40, "R1", "A", "B", "08:00"⟩)⟩,
        ⟨Fix.emptyBuses.buses ++ [mkBus Fix.emptyBuses.nextId
            ⟨"12A", 40, "R1", "A", "B", "08:00"⟩],
          Fix.emptyBuses.nextId + 1⟩) ∧
    mkBus Fix.emptyBuses.nextId ⟨"12A", 40, "R1", "A", "B", "08:00"⟩ ∈
      (listBuses (Part001.createBus Fix.adminSess Fix.fullBody
        Fix.emptyBuses).2).2 ∧
    Part001.deleteBus Fix.adminSess Fix.emptyBuses.nextId
        (Part001.createBus Fix.adminSess Fix.fullBody Fix.emptyBuses).2 =
      (⟨200, "Bus deleted successfully", none⟩,
        ⟨Fix.emptyBuses.buses, Fix.emptyBuses.nextId + 1⟩) ∧
    (∀ b ∈ (listBuses (Part001.deleteBus Fix.adminSess
        Fix.emptyBuses.nextId (Part001.createBus Fix.adminSess
        Fix.fullBody Fix.emptyBuses).2).2).2,
      b.id ≠ Fix.emptyBuses.nextId) ∧
    (Part001.deleteBus Fix.adminSess Fix.emptyBuses.nextId
        (Part001.deleteBus Fix.adminSess Fix.emptyBuses.nextId
        (Part001.createBus Fix.adminSess Fix.fullBody
        Fix.emptyBuses).2).2).1 =
      ⟨404, "Bus not found", none⟩ :=
  C8_create_delete_roundtrip Fix.adminSess 1 Fix.fullBody
    ⟨"12A", 40, "R1", "A", "B", "08:00"⟩ Fix.emptyBuses rfl rfl
    (by decide) (by decide)

/-- C9: in the server.js variant, with the auth and admin gates passed,
Create answers 400 exactly when some of the six fields is falsy — so a
present numeric seats value of 0 is rejected — and a 400 answer always
carries the generic fill-all-fields message with no record inserted. -/
theorem C9_create_truthiness_gate
    (sess : Session) (uid : Nat) (body : BusBody) (store : BusStore)
    (hu : sess.userId = some uid) (hr : sess.role = some "admin") :
    ((ServerJs.createBus sess body store).1.status = 400 ↔
      (truthy body.busNumber = false ∨ truthy body.seats = false ∨
       truthy body.route = false ∨ truthy body.departurePoint = false ∨
       truthy body.destinationPoint = false ∨
       truthy body.departureTime = false)) ∧
    ((ServerJs.createBus sess body store).1.status = 400 →
      ServerJs.createBus sess body store =
        (⟨400, "Palun täitke kõik väljad", none⟩, store)) := by
  by_cases hcond : (!truthy body.busNumber || !truthy body.seats ||
      !truthy body.route || !truthy body.departurePoint ||
      !truthy body.destinationPoint || !truthy body.departureTime) = true
  · have hres : ServerJs.createBus sess body store =
        (⟨400, "Palun täitke kõik väljad", none⟩, store) := by
      simp [ServerJs.createBus, ServerJs.authRequired_pass_js hu,
        ServerJs.adminRequired_pass_js hr, hcond]
    have hdisj : truthy body.busNumber = false ∨ truthy body.seats = false ∨
        truthy body.route = false ∨ truthy body.departurePoint = false ∨
        truthy body.destinationPoint = false ∨
        truthy body.departureTime = false := by
      simp only [Bool.or_eq_true, Bool.not_eq_true'] at hcond
      tauto
    rw [hres]
    exact ⟨⟨fun _ => hdisj, fun _ => rfl⟩, fun _ => rfl⟩
  · have hnd : ¬(truthy body.busNumber = false ∨ truthy body.seats = false ∨
        truthy body.route = false ∨ truthy body.departurePoint = false ∨
        truthy body.destinationPoint = false ∨
        truthy body.departureTime = false) := by
      simp only [Bool.or_eq_true, Bool.not_eq_true'] at hcond
      tauto
    cases hv : validateBus body with
    | none =>
      have hres : ServerJs.createBus sess body store =
          (⟨500, "Serveri viga bussi lisamisel", none⟩, store) := by
        simp [ServerJs.createBus, ServerJs.authRequired_pass_js hu,
          ServerJs.adminRequired_pass_js hr, hcond, hv]
      rw [hres]
      exact ⟨⟨fun h => absurd h (by simp), fun h => absurd h hnd⟩,
        fun h => absurd h (by simp)⟩
    | some d =>
      have hres : ServerJs.createBus sess body store =
          (⟨201, "Buss on edukalt lisatud", some (mkBus store.nextId d)⟩,
            ⟨store.buses ++ [mkBus store.nextId d], store.nextId + 1⟩) := by
        simp [ServerJs.createBus, ServerJs.authRequired_pass_js hu,
          ServerJs.adminRequired_pass_js hr, hcond, hv]
      rw [hres]
      exact ⟨⟨fun h => absurd h (by simp), fun h => absurd h hnd⟩,
        fun h => absurd h (by simp)⟩

/-- C9 witness: an admin Create with all six fields present but
seats = 0 is answered 400 with no record inserted. -/
theorem C9_witness :
    ServerJs.createBus Fix.adminSess Fix.zeroSeatsBody Fix.emptyBuses =
      (⟨400, "Palun täitke kõik väljad", none⟩, Fix.emptyBuses) :=
  (C9_create_truthiness_gate Fix.adminSess 1 Fix.zeroSeatsBody
      Fix.emptyBuses rfl rfl).2
    ((C9_create_truthiness_gate Fix.adminSess 1 Fix.zeroSeatsBody
      Fix.emptyBuses rfl rfl).1.mpr (by decide))

end APIRoute
